import Mathlib

/-!
Verification of the sora2 video-generation proxy/simulator server.

The server (src/unnamed/part_000) has two modes sharing one job data model:
a local simulator (`createMockJob` / `cancelMockJob` over the `mockJobs` map,
advancing jobs with two `setTimeout` timers) and a proxy that relays
create/get/cancel requests to an upstream provider.

The embedding below translates the data model, the simulator functions, the
three route handlers and the timer-driven execution into Lean.  Timer-driven
execution is modelled as a small-step machine: a `SimState` holds the job
registry, the set of still-pending timer registrations and fresh-name
counters, and an `Event` either creates a job, fires a pending timer, or
cancels a job.  The event loop fires timers in expiry order, so a `fire`
event is a no-op unless the fired timer has the smallest expiry among the
pending timers of its job (both timers of a job are registered together with
delays 1000 and 5000 from the same origin).
-/

namespace Sora2

/-- Lifecycle states of a generation job (the `JobStatus` union type). -/
inductive JobStatus
  | queued
  | processing
  | succeeded
  | failed
  | canceled
deriving DecidableEq

/-- Generation parameters supplied by the caller (interface `JobOptions`). -/
structure JobOptions where
  prompt : String
  duration : Option Int := none
  aspect_ratio : Option String := none
  width : Option Int := none
  height : Option Int := none
deriving DecidableEq

/-- The result attached to a succeeded job. -/
structure JobResult where
  video_url : String
deriving DecidableEq

/-- The client-facing job record (interface `Job`).  Timestamps are modelled
as `Nat` ticks of the machine clock. -/
structure Job where
  id : String
  status : JobStatus
  created_at : Nat
  updated_at : Nat
  result : Option JobResult
  error : Option String
  options : JobOptions
deriving DecidableEq

/-- A stored simulator job: a `Job` together with its scheduling handles
(interface `MockJob extends Job`, field `timers: NodeJS.Timeout[]`). -/
structure MockJob extends Job where
  timers : List Nat
deriving DecidableEq

/-- Which of the two scheduled transitions a timer performs. -/
inductive TimerKind
  | queue       -- the 1000ms timer: sets status to processing
  | completion  -- the 5000ms timer: sets status to succeeded and attaches the result
deriving DecidableEq

/-- A pending `setTimeout` registration: the handle, the job its callback
closes over, which callback, and the tick at which it expires. -/
structure TimerRec where
  tid : Nat
  jobId : String
  kind : TimerKind
  fireAt : Nat
deriving DecidableEq

/-- Lookup in an association list with JS `Map.get` semantics. -/
def mapGet {α : Type} : List (String × α) → String → Option α
  | [], _ => none
  | (k, v) :: rest, key => if k = key then some v else mapGet rest key

/-- Update in an association list with JS `Map.set` semantics: replace the
binding in place if the key is present, otherwise append at the end. -/
def mapSet {α : Type} : List (String × α) → String → α → List (String × α)
  | [], key, v => [(key, v)]
  | (k, w) :: rest, key, v =>
      if k = key then (key, v) :: rest else (k, w) :: mapSet rest key v

/-- Modelled from the spec: `crypto.randomUUID()` is an opaque, unique,
non-empty identifier.  It is modelled as a string determined by a
per-process counter (the `SimState.nextId` field), which keeps it injective
and non-empty. -/
def randomUUID (n : Nat) : String :=
  String.mk (List.replicate (n + 1) 'u')

/-- State of the simulator component: the `mockJobs` registry, the pending
timer registrations, fresh-name counters for job ids and timer handles, and
the clock used for `new Date().toISOString()` timestamps. -/
structure SimState where
  jobs : List (String × MockJob)
  pending : List TimerRec
  nextId : Nat
  nextTid : Nat
  clock : Nat
deriving DecidableEq

/-- The empty registry at process start. -/
def initState : SimState :=
  { jobs := [], pending := [], nextId := 0, nextTid := 0, clock := 0 }

/-- `serializeJob`: the public projection returned to clients.  It copies
exactly the fields `id`, `status`, `created_at`, `updated_at`, `result`,
`error`, `options` of its argument; applied to a stored `MockJob` (via
`.toJob`) it therefore drops the `timers` field. -/
def serializeJob (job : Job) : Job :=
  { id := job.id
    status := job.status
    created_at := job.created_at
    updated_at := job.updated_at
    result := job.result
    error := job.error
    options := job.options }

/-- `createMockJob(options)`: allocates a fresh id, stores a `queued` job
with `created_at = updated_at = now`, registers the two timers (delays 1000
and 5000 from creation), and returns the serialized projection. -/
def createMockJob (s : SimState) (options : JobOptions) : Job × SimState :=
  let id := randomUUID s.nextId
  let now := s.clock
  let t1 := s.nextTid
  let t2 := s.nextTid + 1
  let job : MockJob :=
    { id := id
      status := .queued
      created_at := now
      updated_at := now
      result := none
      error := none
      options := options
      timers := [t1, t2] }
  let qt : TimerRec := { tid := t1, jobId := id, kind := .queue, fireAt := now + 1000 }
  let ct : TimerRec := { tid := t2, jobId := id, kind := .completion, fireAt := now + 5000 }
  (serializeJob job.toJob,
    { s with
        jobs := mapSet s.jobs id job
        pending := s.pending ++ [qt, ct]
        nextId := s.nextId + 1
        nextTid := s.nextTid + 2 })

/-- The callback of the 1000ms timer: `job.status = "processing"`,
`job.updated_at = now` (unconditionally — the callback performs no status
check of its own). -/
def queueCallback (now : Nat) (job : MockJob) : MockJob :=
  { job with status := .processing, updated_at := now }

/-- The callback of the 5000ms timer: `job.status = "succeeded"`,
`job.updated_at = now`, and a synthesized `result.video_url` derived from
the job id (unconditionally — the callback performs no status check). -/
def completionCallback (now : Nat) (job : MockJob) : MockJob :=
  { job with
      status := .succeeded
      updated_at := now
      result := some { video_url :=
        "https://cdn.openai.com/sora/videos/mock-" ++ job.id ++ ".mp4" } }

/-- `cancelMockJob(id)`.  Returns `none` when the id is unknown.  When the
job is already terminal it returns the stored record itself (`return job;`
— a `MockJob`, `timers` field included, modelled as `Sum.inl`) and changes
nothing.  Otherwise it clears both timers (`clearTimeout` removes them from
the pending set), sets `status = "canceled"`, refreshes `updated_at`, and
returns the serialized projection (`Sum.inr`). -/
def cancelMockJob (s : SimState) (id : String) : Option (Sum MockJob Job) × SimState :=
  match mapGet s.jobs id with
  | none => (none, s)
  | some job =>
    if job.status = .succeeded ∨ job.status = .failed ∨ job.status = .canceled then
      (some (Sum.inl job), s)
    else
      let pending := s.pending.filter (fun t => !(job.timers.contains t.tid))
      let job := { job with status := JobStatus.canceled, updated_at := s.clock }
      (some (Sum.inr (serializeJob job.toJob)),
        { s with jobs := mapSet s.jobs id job, pending := pending })

/-- Dispatch to the callback a timer was registered with. -/
def runCallback (kind : TimerKind) (now : Nat) (job : MockJob) : MockJob :=
  match kind with
  | .queue => queueCallback now job
  | .completion => completionCallback now job

/-- Firing of a pending timer by the event loop.  A handle that is not
pending (already fired, or removed by `clearTimeout`) never fires.  The
event loop dispatches expired timers in expiry order, so a timer whose job
still has an earlier-expiring pending timer cannot fire yet. -/
def fireTimer (s : SimState) (tid : Nat) : SimState :=
  match s.pending.find? (fun t => t.tid = tid) with
  | none => s
  | some t =>
    if s.pending.any (fun u => u.jobId = t.jobId ∧ u.fireAt < t.fireAt) then s
    else
      match mapGet s.jobs t.jobId with
      | none => { s with pending := s.pending.filter (fun u => !(u.tid = tid)) }
      | some job =>
        { s with
            jobs := mapSet s.jobs t.jobId (runCallback t.kind s.clock job)
            pending := s.pending.filter (fun u => !(u.tid = tid)) }

/-- An event of the simulator's single-threaded execution: a client creates
a job, the event loop fires a scheduled timer, or a client cancels a job. -/
inductive Event
  | create (options : JobOptions)
  | fire (tid : Nat)
  | cancel (id : String)

/-- One step: the clock advances, then the event's effect is applied. -/
def step (s : SimState) (e : Event) : SimState :=
  let s := { s with clock := s.clock + 1 }
  match e with
  | .create options => (createMockJob s options).2
  | .fire tid => fireTimer s tid
  | .cancel id => (cancelMockJob s id).2

/-- Execution of a sequence of events. -/
def run (s : SimState) (es : List Event) : SimState :=
  es.foldl step s

/-- A JavaScript value as it can appear in a parsed JSON request body.
`undef` stands for an absent field (destructuring yields `undefined`);
`obj` stands for any object or array value. -/
inductive JsVal
  | undef
  | nullv
  | bool (b : Bool)
  | num (n : Int)
  | str (s : String)
  | obj
deriving DecidableEq

/-- JS truthiness of a request-body value (`!v` negates this). -/
def jsTruthy : JsVal → Bool
  | .undef => false
  | .nullv => false
  | .bool b => b
  | .num n => n != 0
  | .str s => s != ""
  | .obj => true

/-- Whether `typeof v === "string"`. -/
def isString : JsVal → Bool
  | .str _ => true
  | _ => false

/-- The string payload of a string value (only read after `isString`). -/
def strVal : JsVal → String
  | .str s => s
  | _ => ""

/-- The fields destructured from `req.body` by the create route. -/
structure ReqBody where
  prompt : JsVal := .undef
  duration : JsVal := .undef
  aspectRatio : JsVal := .undef
  width : JsVal := .undef
  height : JsVal := .undef
deriving DecidableEq

/-- Load-time configuration: `MOCK_MODE`, `SORA_API_KEY` (the empty string
when unset), `SORA_API_BASE_URL`. -/
structure Config where
  mockMode : Bool
  apiKey : String
  baseUrl : String
deriving DecidableEq

/-- The JSON body the create route forwards upstream
(`JSON.stringify` of the raw destructured fields). -/
structure PostPayload where
  prompt : JsVal
  duration : JsVal
  aspect_ratio : JsVal
  width : JsVal
  height : JsVal
deriving DecidableEq

/-- One outbound `fetch` request issued by the proxy. -/
structure FetchCall where
  method : String
  url : String
  auth : String
  payload : Option PostPayload
deriving DecidableEq

/-- An opaque JSON document received from the upstream provider; the proxy
relays it without inspecting it. -/
structure UpstreamBody where
  raw : String
deriving DecidableEq

/-- Outcome of an outbound `fetch`: the promise rejects (network error), or
a response arrives with a status code and, when the body parses as JSON,
the parsed document (`none` when `response.json()` would throw). -/
inductive FetchOutcome
  | networkError
  | response (status : Nat) (jsonBody : Option UpstreamBody)
deriving DecidableEq

/-- The body of an HTTP response sent to the client.  A serialized `Job`
projection, a raw stored `MockJob` (its `timers` field included), an error
object, a relayed upstream document, or an empty `send()` body are values
of different shapes, so they are distinguished by constructor. -/
inductive RespBody
  | jobJson (j : Job)
  | mockJobJson (m : MockJob)
  | errJson (msg : String)
  | upstream (body : UpstreamBody)
  | empty
deriving DecidableEq

/-- What a route handler produces: the HTTP status and body sent to the
client, the simulator state afterwards, and the outbound network calls the
handler issued. -/
structure HandlerResult where
  status : Nat
  body : RespBody
  state : SimState
  calls : List FetchCall
deriving DecidableEq

/-- Builds the `JobOptions` record from the validated prompt and the raw
optional fields, with the route's type checks (lines 125-140). -/
def buildOptions (prompt : String) (duration aspectRatio width height : JsVal) : JobOptions :=
  let o : JobOptions := { prompt := prompt }
  let o := match duration with
    | .num n => { o with duration := some n }
    | _ => o
  let o := match aspectRatio with
    | .str a => if a.trim.length > 0 then { o with aspect_ratio := some a } else o
    | _ => o
  let o := match width with
    | .num n => { o with width := some n }
    | _ => o
  match height with
  | .num n => { o with height := some n }
  | _ => o

/-- The `POST /api/generate` handler.  Validates the prompt, then either
creates a simulator job (mock mode) or, when a key is configured, forwards
the request upstream and relays the outcome. -/
def postGenerate (cfg : Config) (fetchFn : FetchCall → FetchOutcome)
    (s : SimState) (body : ReqBody) : HandlerResult :=
  let prompt := body.prompt
  if !(jsTruthy prompt) || !(isString prompt) then
    ⟨400, .errJson "Prompt is required", s, []⟩
  else
    let options := buildOptions (strVal prompt) body.duration body.aspectRatio body.width body.height
    if cfg.mockMode then
      let created := createMockJob s options
      ⟨202, .jobJson created.1, created.2, []⟩
    else if cfg.apiKey = "" then
      ⟨500, .errJson "SORA_API_KEY is not configured", s, []⟩
    else
      let call : FetchCall :=
        { method := "POST"
          url := cfg.baseUrl
          auth := "Bearer " ++ cfg.apiKey
          payload := some ⟨prompt, body.duration, body.aspectRatio, body.width, body.height⟩ }
      match fetchFn call with
      | .networkError => ⟨500, .errJson "Failed to create video generation job", s, [call]⟩
      | .response _ none => ⟨500, .errJson "Failed to create video generation job", s, [call]⟩
      | .response st (some data) =>
        if 200 ≤ st ∧ st < 300 then ⟨202, .upstream data, s, [call]⟩
        else ⟨st, .upstream data, s, [call]⟩

/-- The `fetch` request issued by the get route for a given id. -/
def getCall (cfg : Config) (id : String) : FetchCall :=
  { method := "GET"
    url := cfg.baseUrl ++ "/" ++ id
    auth := "Bearer " ++ cfg.apiKey
    payload := none }

/-- The `GET /api/jobs/:id` handler. -/
def getJobRoute (cfg : Config) (fetchFn : FetchCall → FetchOutcome)
    (s : SimState) (id : String) : HandlerResult :=
  if cfg.mockMode then
    match mapGet s.jobs id with
    | none => ⟨404, .errJson "Job not found", s, []⟩
    | some job => ⟨200, .jobJson (serializeJob job.toJob), s, []⟩
  else if cfg.apiKey = "" then
    ⟨500, .errJson "SORA_API_KEY is not configured", s, []⟩
  else
    let call := getCall cfg id
    match fetchFn call with
    | .networkError => ⟨500, .errJson "Failed to fetch video generation job", s, [call]⟩
    | .response _ none => ⟨500, .errJson "Failed to fetch video generation job", s, [call]⟩
    | .response st (some data) =>
      if 200 ≤ st ∧ st < 300 then ⟨200, .upstream data, s, [call]⟩
      else ⟨st, .upstream data, s, [call]⟩

/-- The `fetch` request issued by the cancel route for a given id. -/
def deleteCall (cfg : Config) (id : String) : FetchCall :=
  { method := "DELETE"
    url := cfg.baseUrl ++ "/" ++ id
    auth := "Bearer " ++ cfg.apiKey
    payload := none }

/-- The `DELETE /api/jobs/:id` handler.  In mock mode the body sent to the
client is whatever `cancelMockJob` returned: the serialized projection, or
the stored `MockJob` itself for an already-terminal job.  In proxy mode a
204 upstream response is answered with an empty 204 before the body is
read; otherwise the parsed body is relayed. -/
def deleteJobRoute (cfg : Config) (fetchFn : FetchCall → FetchOutcome)
    (s : SimState) (id : String) : HandlerResult :=
  if cfg.mockMode then
    match cancelMockJob s id with
    | (none, s2) => ⟨404, .errJson "Job not found", s2, []⟩
    | (some (Sum.inl m), s2) => ⟨200, .mockJobJson m, s2, []⟩
    | (some (Sum.inr j), s2) => ⟨200, .jobJson j, s2, []⟩
  else if cfg.apiKey = "" then
    ⟨500, .errJson "SORA_API_KEY is not configured", s, []⟩
  else
    let call := deleteCall cfg id
    match fetchFn call with
    | .networkError => ⟨500, .errJson "Failed to cancel video generation job", s, [call]⟩
    | .response st body =>
      if st = 204 then ⟨204, .empty, s, [call]⟩
      else
        match body with
        | none => ⟨500, .errJson "Failed to cancel video generation job", s, [call]⟩
        | some data =>
          if 200 ≤ st ∧ st < 300 then ⟨200, .upstream data, s, [call]⟩
          else ⟨st, .upstream data, s, [call]⟩

/-- A terminal lifecycle state. -/
def Terminal (st : JobStatus) : Prop :=
  st = .succeeded ∨ st = .failed ∨ st = .canceled

instance : DecidablePred Terminal := fun st =>
  inferInstanceAs (Decidable (st = .succeeded ∨ st = .failed ∨ st = .canceled))

/-- Per-job part of the reachability invariant of the simulator, relative
to the pending-timer set, the id counter, and the registration key of the
job.  A registered job has a counter-derived id; its handle list records
exactly the queue timer and the completion timer of its creation, and every
pending registration aimed at the job is one of those two; a canceled or
succeeded job has no pending registration left; the simulator never
produces a failed job; `result` accompanies exactly `succeeded` and `error`
exactly `failed`. -/
structure JobInv (pending : List TimerRec) (nextId : Nat) (id : String) (j : MockJob) : Prop where
  idFresh : ∃ k, k < nextId ∧ id = randomUUID k
  timersShape : ∃ q c cr, j.timers = [q, c] ∧ q ≠ c ∧
    ∀ t ∈ pending, t.jobId = id →
      (t.tid = q ∧ t.kind = TimerKind.queue ∧ t.fireAt = cr + 1000) ∨
      (t.tid = c ∧ t.kind = TimerKind.completion ∧ t.fireAt = cr + 5000)
  canceledNoPending : j.status = .canceled → ∀ t ∈ pending, t.jobId ≠ id
  succeededNoPending : j.status = .succeeded → ∀ t ∈ pending, t.jobId ≠ id
  notFailed : j.status ≠ .failed
  resultIff : j.result.isSome ↔ j.status = .succeeded
  errorIff : j.error.isSome ↔ j.status = .failed

/-- The reachability invariant over the components of a state: every
registered job satisfies its per-job invariant, and every pending
registration is aimed at a counter-derived id. -/
structure InvC (jobs : List (String × MockJob)) (pending : List TimerRec) (nextId : Nat) : Prop where
  jobInv : ∀ id j, mapGet jobs id = some j → JobInv pending nextId id j
  pendBound : ∀ t ∈ pending, ∃ k, k < nextId ∧ t.jobId = randomUUID k

/-- The reachability invariant of a simulator state. -/
abbrev Inv (s : SimState) : Prop := InvC s.jobs s.pending s.nextId

/-- The stored record `createMockJob` builds (the local `job` of the
source, with the two freshly allocated handles). -/
def newMockJob (s : SimState) (o : JobOptions) : MockJob :=
  { id := randomUUID s.nextId, status := .queued, created_at := s.clock,
    updated_at := s.clock, result := none, error := none, options := o,
    timers := [s.nextTid, s.nextTid + 1] }

/-- The registration of the local `queueTimer` of `createMockJob`. -/
def newQueueTimer (s : SimState) : TimerRec :=
  { tid := s.nextTid, jobId := randomUUID s.nextId, kind := .queue, fireAt := s.clock + 1000 }

/-- The registration of the local `completionTimer` of `createMockJob`. -/
def newCompletionTimer (s : SimState) : TimerRec :=
  { tid := s.nextTid + 1, jobId := randomUUID s.nextId, kind := .completion,
    fireAt := s.clock + 5000 }

/-- Simulator-mode configuration (MOCK_MODE=true, no key needed). -/
def cfgMock : Config :=
  { mockMode := true, apiKey := "", baseUrl := "https://api.openai.com/v1/videos" }

/-- Proxy-mode configuration with a key configured. -/
def cfgProxy : Config :=
  { mockMode := false, apiKey := "k", baseUrl := "https://api.openai.com/v1/videos" }

/-- Proxy-mode configuration with SORA_API_KEY unset. -/
def cfgProxyNoKey : Config :=
  { mockMode := false, apiKey := "", baseUrl := "https://api.openai.com/v1/videos" }

/-- A network in which every request fails at transport level. -/
def noFetch : FetchCall → FetchOutcome := fun _ => FetchOutcome.networkError

/-- A sample upstream JSON document. -/
def demoUpstream : UpstreamBody := { raw := "provider payload" }

/-- A network whose answer to every request is status 404 with a JSON body. -/
def fetch404 : FetchCall → FetchOutcome := fun _ => FetchOutcome.response 404 (some demoUpstream)

/-- A network whose answer to every request is 204 No Content. -/
def fetch204 : FetchCall → FetchOutcome := fun _ => FetchOutcome.response 204 none

/-- Sample generation options. -/
def demoOptions : JobOptions := { prompt := "a cat" }

/-- Sample valid create request body. -/
def demoBody : ReqBody := { prompt := JsVal.str "a cat" }

/-- The id the simulator assigns to the first job of a process. -/
def demoId : String := randomUUID 0

/-- Registry state after one job was created through the create route. -/
def sAfterCreate : SimState := (postGenerate cfgMock noFetch initState demoBody).state

/-- Registry state after that job was then canceled through the cancel route. -/
def sAfterCancel : SimState := (deleteJobRoute cfgMock noFetch sAfterCreate demoId).state

/-- The stored record of the canceled demo job. -/
def demoCanceledJob : MockJob :=
  { id := demoId, status := .canceled, created_at := 0, updated_at := 0,
    result := none, error := none, options := demoOptions, timers := [0, 1] }

/-- The stored record of the demo job right after `run initState [create]`. -/
def demoStoredJob : MockJob :=
  { id := demoId, status := .queued, created_at := 1, updated_at := 1,
    result := none, error := none, options := demoOptions, timers := [0, 1] }

/-- A create request body with no fields at all. -/
def emptyBody : ReqBody := {}

/-- A create request body whose prompt is the (truthy, non-string) number 5. -/
def numBody : ReqBody := { prompt := JsVal.num 5 }

/-! ### Basic lemmas about the registry map and id generation -/

theorem mapGet_mapSet_self {α : Type} (m : List (String × α)) (k : String) (v : α) :
    mapGet (mapSet m k v) k = some v := by
  induction m with
  | nil => simp [mapGet, mapSet]
  | cons p rest ih =>
    obtain ⟨k1, v1⟩ := p
    by_cases h : k1 = k
    · subst h
      simp [mapGet, mapSet]
    · simp [mapGet, mapSet, h, ih]

theorem mapGet_mapSet_ne {α : Type} (m : List (String × α)) (k k' : String) (v : α)
    (h : k' ≠ k) : mapGet (mapSet m k v) k' = mapGet m k' := by
  induction m with
  | nil => simp [mapGet, mapSet, Ne.symm h]
  | cons p rest ih =>
    obtain ⟨k1, v1⟩ := p
    by_cases h1 : k1 = k
    · subst h1
      simp [mapGet, mapSet, Ne.symm h]
    · by_cases h2 : k1 = k'
      · subst h2
        simp [mapGet, mapSet, h1]
      · simp [mapGet, mapSet, h1, h2, ih]

theorem randomUUID_injective {a b : Nat} (h : randomUUID a = randomUUID b) : a = b := by
  have h2 : (randomUUID a).data = (randomUUID b).data := by rw [h]
  simp only [randomUUID] at h2
  have h3 := congrArg List.length h2
  simp only [List.length_replicate] at h3
  omega

theorem randomUUID_ne_empty (n : Nat) : randomUUID n ≠ "" := by
  intro h
  have h2 : (randomUUID n).data = ("" : String).data := by rw [h]
  simp only [randomUUID] at h2
  have h3 := congrArg List.length h2
  simp only [List.length_replicate] at h3
  simp at h3

/-! ### Characterizations of the simulator operations -/

theorem createMockJob_state (s : SimState) (o : JobOptions) :
    (createMockJob s o).2 =
      { s with
          jobs := mapSet s.jobs (randomUUID s.nextId)
            { id := randomUUID s.nextId, status := .queued, created_at := s.clock,
              updated_at := s.clock, result := none, error := none, options := o,
              timers := [s.nextTid, s.nextTid + 1] }
          pending := s.pending ++
            [{ tid := s.nextTid, jobId := randomUUID s.nextId, kind := .queue,
               fireAt := s.clock + 1000 },
             { tid := s.nextTid + 1, jobId := randomUUID s.nextId, kind := .completion,
               fireAt := s.clock + 5000 }]
          nextId := s.nextId + 1
          nextTid := s.nextTid + 2 } := rfl

theorem cancelMockJob_not_found (s : SimState) (id : String)
    (h : mapGet s.jobs id = none) : cancelMockJob s id = (none, s) := by
  simp [cancelMockJob, h]

theorem cancelMockJob_terminal (s : SimState) (id : String) (j : MockJob)
    (h : mapGet s.jobs id = some j) (ht : Terminal j.status) :
    cancelMockJob s id = (some (Sum.inl j), s) := by
  have ht2 : j.status = JobStatus.succeeded ∨ j.status = JobStatus.failed ∨
      j.status = JobStatus.canceled := ht
  simp only [cancelMockJob, h]
  rw [if_pos ht2]

theorem cancelMockJob_active (s : SimState) (id : String) (j : MockJob)
    (h : mapGet s.jobs id = some j) (hnt : ¬ Terminal j.status) :
    cancelMockJob s id =
      (some (Sum.inr (serializeJob
          ({ j with status := JobStatus.canceled, updated_at := s.clock } : MockJob).toJob)),
       { s with
           jobs := mapSet s.jobs id { j with status := JobStatus.canceled, updated_at := s.clock }
           pending := s.pending.filter (fun t => !(j.timers.contains t.tid)) }) := by
  have hnt2 : ¬ (j.status = JobStatus.succeeded ∨ j.status = JobStatus.failed ∨
      j.status = JobStatus.canceled) := hnt
  simp only [cancelMockJob, h]
  rw [if_neg hnt2]

theorem fireTimer_not_pending (s : SimState) (tid : Nat)
    (h : s.pending.find? (fun t => t.tid = tid) = none) : fireTimer s tid = s := by
  simp [fireTimer, h]

theorem fireTimer_blocked (s : SimState) (tid : Nat) (t : TimerRec)
    (hf : s.pending.find? (fun t => t.tid = tid) = some t)
    (hb : s.pending.any (fun u => u.jobId = t.jobId ∧ u.fireAt < t.fireAt) = true) :
    fireTimer s tid = s := by
  simp only [fireTimer, hf]
  rw [if_pos hb]

theorem fireTimer_no_job (s : SimState) (tid : Nat) (t : TimerRec)
    (hf : s.pending.find? (fun t => t.tid = tid) = some t)
    (hb : s.pending.any (fun u => u.jobId = t.jobId ∧ u.fireAt < t.fireAt) = false)
    (hj : mapGet s.jobs t.jobId = none) :
    fireTimer s tid = { s with pending := s.pending.filter (fun u => !(u.tid = tid)) } := by
  simp only [fireTimer, hf]
  rw [if_neg (by rw [hb]; exact Bool.false_ne_true)]
  simp only [hj]

theorem fireTimer_fires (s : SimState) (tid : Nat) (t : TimerRec) (job : MockJob)
    (hf : s.pending.find? (fun t => t.tid = tid) = some t)
    (hb : s.pending.any (fun u => u.jobId = t.jobId ∧ u.fireAt < t.fireAt) = false)
    (hj : mapGet s.jobs t.jobId = some job) :
    fireTimer s tid =
      { s with
          jobs := mapSet s.jobs t.jobId (runCallback t.kind s.clock job)
          pending := s.pending.filter (fun u => !(u.tid = tid)) } := by
  simp only [fireTimer, hf]
  rw [if_neg (by rw [hb]; exact Bool.false_ne_true)]
  simp only [hj]

/-! ### Claim theorems: routes and simulator API -/

/-- C3.  For every valid options value (prompt present and a non-empty
string), Create in simulator mode returns a 202 response whose body is a
job with status `queued`, a non-empty id, and `created_at = updated_at`. -/
theorem create_valid_returns_queued_job
    (cfg : Config) (fetchFn : FetchCall → FetchOutcome) (s : SimState) (body : ReqBody)
    (p : String) (hmock : cfg.mockMode = true) (hp : body.prompt = JsVal.str p)
    (hne : p ≠ "") :
    (postGenerate cfg fetchFn s body).status = 202 ∧
    ∃ job, (postGenerate cfg fetchFn s body).body = RespBody.jobJson job ∧
      job.status = JobStatus.queued ∧ job.id ≠ "" ∧ job.created_at = job.updated_at := by
  have hres : postGenerate cfg fetchFn s body =
      ⟨202, RespBody.jobJson (createMockJob s (buildOptions (strVal body.prompt)
          body.duration body.aspectRatio body.width body.height)).1,
        (createMockJob s (buildOptions (strVal body.prompt)
          body.duration body.aspectRatio body.width body.height)).2, []⟩ := by
    simp only [postGenerate]
    rw [if_neg ?hv, if_pos hmock]
    case hv =>
      rw [hp]
      simp [jsTruthy, isString, hne]
  rw [hres]
  exact ⟨rfl, (createMockJob s _).1, rfl, rfl, randomUUID_ne_empty s.nextId, rfl⟩

/-- Witness for C3 at a concrete valid request. -/
theorem create_valid_returns_queued_job_witness :
    cfgMock.mockMode = true ∧ demoBody.prompt = JsVal.str "a cat" ∧ "a cat" ≠ "" ∧
    ((postGenerate cfgMock noFetch initState demoBody).status = 202 ∧
     ∃ job, (postGenerate cfgMock noFetch initState demoBody).body = RespBody.jobJson job ∧
       job.status = JobStatus.queued ∧ job.id ≠ "" ∧ job.created_at = job.updated_at) :=
  ⟨rfl, rfl, by decide,
    create_valid_returns_queued_job cfgMock noFetch initState demoBody "a cat" rfl rfl
      (by decide)⟩

/-- C4.  A Create request whose prompt is absent or the empty string is
answered 400 "Prompt is required", with the registry unchanged and no
outbound call. -/
theorem create_missing_or_empty_prompt_rejected
    (cfg : Config) (fetchFn : FetchCall → FetchOutcome) (s : SimState) (body : ReqBody)
    (h : body.prompt = JsVal.undef ∨ body.prompt = JsVal.str "") :
    postGenerate cfg fetchFn s body = ⟨400, RespBody.errJson "Prompt is required", s, []⟩ := by
  have hval : (!(jsTruthy body.prompt) || !(isString body.prompt)) = true := by
    rcases h with h | h <;> rw [h] <;> simp [jsTruthy, isString]
  simp only [postGenerate]
  rw [if_pos hval]

/-- Witness for C4 at the empty request body. -/
theorem create_missing_or_empty_prompt_rejected_witness :
    (emptyBody.prompt = JsVal.undef ∨ emptyBody.prompt = JsVal.str "") ∧
    postGenerate cfgMock noFetch initState emptyBody =
      ⟨400, RespBody.errJson "Prompt is required", initState, []⟩ :=
  ⟨Or.inl rfl,
    create_missing_or_empty_prompt_rejected cfgMock noFetch initState emptyBody (Or.inl rfl)⟩

/-- C10.  A Create request whose prompt is present but not a string is
rejected exactly like a missing prompt: 400 "Prompt is required", registry
unchanged, no outbound call. -/
theorem create_nonstring_prompt_rejected
    (cfg : Config) (fetchFn : FetchCall → FetchOutcome) (s : SimState) (body : ReqBody)
    (hpresent : body.prompt ≠ JsVal.undef) (hstr : isString body.prompt = false) :
    postGenerate cfg fetchFn s body = ⟨400, RespBody.errJson "Prompt is required", s, []⟩ := by
  have hval : (!(jsTruthy body.prompt) || !(isString body.prompt)) = true := by
    simp [hstr]
  simp only [postGenerate]
  rw [if_pos hval]

/-- Witness for C10 at prompt = 5 (truthy, non-string). -/
theorem create_nonstring_prompt_rejected_witness :
    numBody.prompt ≠ JsVal.undef ∧ isString numBody.prompt = false ∧
    postGenerate cfgMock noFetch initState numBody =
      ⟨400, RespBody.errJson "Prompt is required", initState, []⟩ :=
  ⟨by decide, rfl,
    create_nonstring_prompt_rejected cfgMock noFetch initState numBody (by decide) rfl⟩

/-- C5.  Cancel on a job already in a terminal state answers 200 with the
stored job itself, in the same terminal state, and changes neither the job
nor the registry (in particular `updated_at` is not touched). -/
theorem cancel_terminal_idempotent
    (cfg : Config) (fetchFn : FetchCall → FetchOutcome) (s : SimState) (id : String)
    (j : MockJob) (hmock : cfg.mockMode = true) (h : mapGet s.jobs id = some j)
    (ht : Terminal j.status) :
    deleteJobRoute cfg fetchFn s id = ⟨200, RespBody.mockJobJson j, s, []⟩ := by
  simp only [deleteJobRoute]
  rw [if_pos hmock, cancelMockJob_terminal s id j h ht]

/-- Witness for C5: cancelling the already-canceled demo job. -/
theorem cancel_terminal_idempotent_witness :
    cfgMock.mockMode = true ∧
    mapGet sAfterCancel.jobs demoId = some demoCanceledJob ∧
    Terminal demoCanceledJob.status ∧
    deleteJobRoute cfgMock noFetch sAfterCancel demoId =
      ⟨200, RespBody.mockJobJson demoCanceledJob, sAfterCancel, []⟩ :=
  ⟨rfl, by decide, Or.inr (Or.inr rfl),
    cancel_terminal_idempotent cfgMock noFetch sAfterCancel demoId demoCanceledJob rfl
      (by decide) (Or.inr (Or.inr rfl))⟩

/-- C6.  Get and Cancel on an id absent from the registry both answer 404
"Job not found" and leave the registry unchanged. -/
theorem unknown_id_not_found
    (cfg : Config) (fetchFn : FetchCall → FetchOutcome) (s : SimState) (id : String)
    (hmock : cfg.mockMode = true) (h : mapGet s.jobs id = none) :
    getJobRoute cfg fetchFn s id = ⟨404, RespBody.errJson "Job not found", s, []⟩ ∧
    deleteJobRoute cfg fetchFn s id = ⟨404, RespBody.errJson "Job not found", s, []⟩ := by
  constructor
  · simp only [getJobRoute]
    rw [if_pos hmock, h]
  · simp only [deleteJobRoute]
    rw [if_pos hmock, cancelMockJob_not_found s id h]

/-- Witness for C6 at an id the registry has never seen. -/
theorem unknown_id_not_found_witness :
    cfgMock.mockMode = true ∧ mapGet initState.jobs "missing" = none ∧
    (getJobRoute cfgMock noFetch initState "missing" =
       ⟨404, RespBody.errJson "Job not found", initState, []⟩ ∧
     deleteJobRoute cfgMock noFetch initState "missing" =
       ⟨404, RespBody.errJson "Job not found", initState, []⟩) :=
  ⟨rfl, rfl, unknown_id_not_found cfgMock noFetch initState "missing" rfl rfl⟩

/-- C7.  In proxy mode with no credential configured, each of the three
operations answers 500 "SORA_API_KEY is not configured" and issues no
outbound network call (the calls list is empty and the result does not
depend on the network). -/
theorem missing_key_is_config_error_before_network
    (cfg : Config) (fetchFn : FetchCall → FetchOutcome) (s : SimState) (body : ReqBody)
    (id : String) (p : String) (hmock : cfg.mockMode = false) (hkey : cfg.apiKey = "")
    (hp : body.prompt = JsVal.str p) (hne : p ≠ "") :
    postGenerate cfg fetchFn s body =
      ⟨500, RespBody.errJson "SORA_API_KEY is not configured", s, []⟩ ∧
    getJobRoute cfg fetchFn s id =
      ⟨500, RespBody.errJson "SORA_API_KEY is not configured", s, []⟩ ∧
    deleteJobRoute cfg fetchFn s id =
      ⟨500, RespBody.errJson "SORA_API_KEY is not configured", s, []⟩ := by
  have hm : ¬ (cfg.mockMode = true) := by simp [hmock]
  refine ⟨?_, ?_, ?_⟩
  · have hval : (!(jsTruthy body.prompt) || !(isString body.prompt)) = false := by
      rw [hp]
      simp [jsTruthy, isString, hne]
    simp only [postGenerate]
    rw [if_neg (by rw [hval]; exact Bool.false_ne_true), if_neg hm, if_pos hkey]
  · simp only [getJobRoute]
    rw [if_neg hm, if_pos hkey]
  · simp only [deleteJobRoute]
    rw [if_neg hm, if_pos hkey]

/-- Witness for C7: a keyless proxy configuration, evaluated on a valid
create body and a sample id. -/
theorem missing_key_is_config_error_before_network_witness :
    cfgProxyNoKey.mockMode = false ∧ cfgProxyNoKey.apiKey = "" ∧
    demoBody.prompt = JsVal.str "a cat" ∧ "a cat" ≠ "" ∧
    (postGenerate cfgProxyNoKey noFetch initState demoBody =
       ⟨500, RespBody.errJson "SORA_API_KEY is not configured", initState, []⟩ ∧
     getJobRoute cfgProxyNoKey noFetch initState "abc" =
       ⟨500, RespBody.errJson "SORA_API_KEY is not configured", initState, []⟩ ∧
     deleteJobRoute cfgProxyNoKey noFetch initState "abc" =
       ⟨500, RespBody.errJson "SORA_API_KEY is not configured", initState, []⟩) :=
  ⟨rfl, rfl, rfl, by decide,
    missing_key_is_config_error_before_network cfgProxyNoKey noFetch initState demoBody
      "abc" "a cat" rfl rfl rfl (by decide)⟩

/-- C8.  Proxy-mode Cancel: an upstream 204 is passed through as an empty
204 response (no JSON body, distinct from the JSON-bearing success
constructor); any other non-success upstream status is relayed with its
status code and parsed body verbatim; a non-204 success status is answered
200 with the body. -/
theorem cancel_proxy_relays_204_and_errors
    (cfg : Config) (fetchFn : FetchCall → FetchOutcome) (s : SimState) (id : String)
    (hmock : cfg.mockMode = false) (hkey : cfg.apiKey ≠ "") :
    (∀ mb, fetchFn (deleteCall cfg id) = FetchOutcome.response 204 mb →
       deleteJobRoute cfg fetchFn s id = ⟨204, RespBody.empty, s, [deleteCall cfg id]⟩) ∧
    (∀ st b, fetchFn (deleteCall cfg id) = FetchOutcome.response st (some b) →
       st ≠ 204 → ¬ (200 ≤ st ∧ st < 300) →
       deleteJobRoute cfg fetchFn s id = ⟨st, RespBody.upstream b, s, [deleteCall cfg id]⟩) ∧
    (∀ st b, fetchFn (deleteCall cfg id) = FetchOutcome.response st (some b) →
       st ≠ 204 → (200 ≤ st ∧ st < 300) →
       deleteJobRoute cfg fetchFn s id = ⟨200, RespBody.upstream b, s, [deleteCall cfg id]⟩) := by
  have hm : ¬ (cfg.mockMode = true) := by simp [hmock]
  refine ⟨?_, ?_, ?_⟩
  · intro mb hfetch
    simp only [deleteJobRoute]
    rw [if_neg hm, if_neg hkey, hfetch]
    simp
  · intro st b hfetch h204 hok
    simp only [deleteJobRoute]
    rw [if_neg hm, if_neg hkey, hfetch]
    simp [h204, hok]
  · intro st b hfetch h204 hok
    simp only [deleteJobRoute]
    rw [if_neg hm, if_neg hkey, hfetch]
    simp [h204, hok]

/-- Witness for C8 under a network answering 404 with a JSON body. -/
theorem cancel_proxy_relays_204_and_errors_witness :
    cfgProxy.mockMode = false ∧ cfgProxy.apiKey ≠ "" ∧
    ((∀ mb, fetch404 (deleteCall cfgProxy "abc") = FetchOutcome.response 204 mb →
        deleteJobRoute cfgProxy fetch404 initState "abc" =
          ⟨204, RespBody.empty, initState, [deleteCall cfgProxy "abc"]⟩) ∧
     (∀ st b, fetch404 (deleteCall cfgProxy "abc") = FetchOutcome.response st (some b) →
        st ≠ 204 → ¬ (200 ≤ st ∧ st < 300) →
        deleteJobRoute cfgProxy fetch404 initState "abc" =
          ⟨st, RespBody.upstream b, initState, [deleteCall cfgProxy "abc"]⟩) ∧
     (∀ st b, fetch404 (deleteCall cfgProxy "abc") = FetchOutcome.response st (some b) →
        st ≠ 204 → (200 ≤ st ∧ st < 300) →
        deleteJobRoute cfgProxy fetch404 initState "abc" =
          ⟨200, RespBody.upstream b, initState, [deleteCall cfgProxy "abc"]⟩)) :=
  ⟨rfl, by decide,
    cancel_proxy_relays_204_and_errors cfgProxy fetch404 initState "abc" rfl (by decide)⟩

/-! ### The reachability invariant of the simulator -/

theorem inv_init : Inv initState := by
  constructor
  · intro id j hget
    simp [initState, mapGet] at hget
  · intro t ht
    simp [initState] at ht

theorem inv_create (s : SimState) (o : JobOptions) (h : Inv s) :
    Inv (createMockJob s o).2 := by
  show InvC (mapSet s.jobs (randomUUID s.nextId) (newMockJob s o))
    (s.pending ++ [newQueueTimer s, newCompletionTimer s]) (s.nextId + 1)
  constructor
  · intro id j hget
    by_cases hid : id = randomUUID s.nextId
    · subst hid
      rw [mapGet_mapSet_self] at hget
      injection hget with hj
      subst hj
      refine ⟨⟨s.nextId, Nat.lt_succ_self _, rfl⟩,
        ⟨s.nextTid, s.nextTid + 1, s.clock, rfl, by omega, ?_⟩,
        fun hcan => JobStatus.noConfusion hcan,
        fun hsucc => JobStatus.noConfusion hsucc,
        fun hfail => JobStatus.noConfusion hfail, by simp [newMockJob], by simp [newMockJob]⟩
      intro t ht hjid
      rcases List.mem_append.1 ht with h1 | h2
      · exfalso
        obtain ⟨k, hk, hkeq⟩ := h.pendBound t h1
        rw [hkeq] at hjid
        have := randomUUID_injective hjid
        omega
      · simp only [List.mem_cons, List.not_mem_nil, or_false] at h2
        rcases h2 with h2 | h2
        · subst h2
          left
          exact ⟨rfl, rfl, rfl⟩
        · subst h2
          right
          exact ⟨rfl, rfl, rfl⟩
    · rw [mapGet_mapSet_ne _ _ _ _ hid] at hget
      have hJ := h.jobInv id j hget
      obtain ⟨k0, hk0, hk0eq⟩ := hJ.idFresh
      obtain ⟨q, c, cr, hts, hqc, hsh⟩ := hJ.timersShape
      have hnew : ∀ t, (t = newQueueTimer s ∨ t = newCompletionTimer s) → t.jobId ≠ id := by
        intro t h2 hjid
        rcases h2 with h2 | h2 <;> subst h2 <;>
          (simp only [newQueueTimer, newCompletionTimer] at hjid;
           rw [hk0eq] at hjid;
           have := randomUUID_injective hjid;
           omega)
      refine ⟨⟨k0, Nat.lt_succ_of_lt hk0, hk0eq⟩, ⟨q, c, cr, hts, hqc, ?_⟩, ?_, ?_,
        hJ.notFailed, hJ.resultIff, hJ.errorIff⟩
      · intro t ht hjid
        rcases List.mem_append.1 ht with h1 | h2
        · exact hsh t h1 hjid
        · exfalso
          simp only [List.mem_cons, List.not_mem_nil, or_false] at h2
          exact hnew t h2 hjid
      · intro hcan t ht
        rcases List.mem_append.1 ht with h1 | h2
        · exact hJ.canceledNoPending hcan t h1
        · simp only [List.mem_cons, List.not_mem_nil, or_false] at h2
          exact hnew t h2
      · intro hsucc t ht
        rcases List.mem_append.1 ht with h1 | h2
        · exact hJ.succeededNoPending hsucc t h1
        · simp only [List.mem_cons, List.not_mem_nil, or_false] at h2
          exact hnew t h2
  · intro t ht
    rcases List.mem_append.1 ht with h1 | h2
    · obtain ⟨k, hk, hkeq⟩ := h.pendBound t h1
      exact ⟨k, Nat.lt_succ_of_lt hk, hkeq⟩
    · simp only [List.mem_cons, List.not_mem_nil, or_false] at h2
      rcases h2 with h2 | h2 <;> subst h2 <;>
        exact ⟨s.nextId, Nat.lt_succ_self _, rfl⟩

theorem inv_cancel (s : SimState) (id0 : String) (h : Inv s) :
    Inv (cancelMockJob s id0).2 := by
  cases hm : mapGet s.jobs id0 with
  | none =>
    rw [cancelMockJob_not_found s id0 hm]
    exact h
  | some j =>
    by_cases ht : Terminal j.status
    · rw [cancelMockJob_terminal s id0 j hm ht]
      exact h
    · rw [cancelMockJob_active s id0 j hm ht]
      show InvC (mapSet s.jobs id0 { j with status := JobStatus.canceled, updated_at := s.clock })
        (s.pending.filter (fun t => !(j.timers.contains t.tid))) s.nextId
      have hJ0 := h.jobInv id0 j hm
      obtain ⟨q0, c0, cr0, hts0, hqc0, hsh0⟩ := hJ0.timersShape
      constructor
      · intro id j2 hget
        by_cases hid : id = id0
        · subst hid
          rw [mapGet_mapSet_self] at hget
          injection hget with hj2
          subst hj2
          refine ⟨hJ0.idFresh, ⟨q0, c0, cr0, hts0, hqc0, ?_⟩, ?_,
            fun hsucc => JobStatus.noConfusion hsucc,
            fun hfail => JobStatus.noConfusion hfail, ?_, ?_⟩
          · intro t htf hjid
            exact hsh0 t (List.mem_filter.1 htf).1 hjid
          · intro _ t htf hjid
            obtain ⟨hmem, hpass⟩ := List.mem_filter.1 htf
            have hin : t.tid ∈ j.timers := by
              rcases hsh0 t hmem hjid with ⟨h1, _, _⟩ | ⟨h1, _, _⟩ <;> rw [h1, hts0] <;> simp
            simp [hin] at hpass
          · constructor
            · intro hr
              exact absurd (hJ0.resultIff.1 hr) (fun hs => ht (Or.inl hs))
            · intro hc
              exact absurd hc (fun hh => JobStatus.noConfusion hh)
          · constructor
            · intro hr
              exact absurd (hJ0.errorIff.1 hr) hJ0.notFailed
            · intro hc
              exact absurd hc (fun hh => JobStatus.noConfusion hh)
        · rw [mapGet_mapSet_ne _ _ _ _ hid] at hget
          have hJ := h.jobInv id j2 hget
          obtain ⟨q, c, cr, hts, hqc, hsh⟩ := hJ.timersShape
          exact ⟨hJ.idFresh,
            ⟨q, c, cr, hts, hqc, fun t htf hjid => hsh t (List.mem_filter.1 htf).1 hjid⟩,
            fun hcan t htf => hJ.canceledNoPending hcan t (List.mem_filter.1 htf).1,
            fun hsucc t htf => hJ.succeededNoPending hsucc t (List.mem_filter.1 htf).1,
            hJ.notFailed, hJ.resultIff, hJ.errorIff⟩
      · intro t htf
        exact h.pendBound t (List.mem_filter.1 htf).1

theorem inv_fire (s : SimState) (tid : Nat) (h : Inv s) : Inv (fireTimer s tid) := by
  cases hf : s.pending.find? (fun t => t.tid = tid) with
  | none =>
    rw [fireTimer_not_pending s tid hf]
    exact h
  | some t =>
    cases hb : s.pending.any (fun u => u.jobId = t.jobId ∧ u.fireAt < t.fireAt) with
    | true =>
      rw [fireTimer_blocked s tid t hf hb]
      exact h
    | false =>
      have htmem : t ∈ s.pending := List.mem_of_find?_eq_some hf
      have htid : t.tid = tid := by
        have := List.find?_some hf
        simpa using this
      have hsub : ∀ P : TimerRec → Prop,
          (∀ u ∈ s.pending, P u) →
          ∀ u ∈ s.pending.filter (fun u => !(u.tid = tid)), P u :=
        fun P hP u huf => hP u (List.mem_filter.1 huf).1
      cases hj : mapGet s.jobs t.jobId with
      | none =>
        rw [fireTimer_no_job s tid t hf hb hj]
        show InvC s.jobs (s.pending.filter (fun u => !(u.tid = tid))) s.nextId
        constructor
        · intro id j2 hget
          have hJ := h.jobInv id j2 hget
          obtain ⟨q, c, cr, hts, hqc, hsh⟩ := hJ.timersShape
          exact ⟨hJ.idFresh,
            ⟨q, c, cr, hts, hqc, fun u huf hju => hsh u (List.mem_filter.1 huf).1 hju⟩,
            fun hcan u huf => hJ.canceledNoPending hcan u (List.mem_filter.1 huf).1,
            fun hsucc u huf => hJ.succeededNoPending hsucc u (List.mem_filter.1 huf).1,
            hJ.notFailed, hJ.resultIff, hJ.errorIff⟩
        · intro u huf
          exact h.pendBound u (List.mem_filter.1 huf).1
      | some job =>
        rw [fireTimer_fires s tid t job hf hb hj]
        show InvC (mapSet s.jobs t.jobId (runCallback t.kind s.clock job))
          (s.pending.filter (fun u => !(u.tid = tid))) s.nextId
        have hJob := h.jobInv t.jobId job hj
        obtain ⟨q, c, cr, hts, hqc, hsh⟩ := hJob.timersShape
        have hnb : ∀ u ∈ s.pending, u.jobId = t.jobId → ¬ u.fireAt < t.fireAt := by
          intro u hu hju hlt
          have hany : s.pending.any (fun u => u.jobId = t.jobId ∧ u.fireAt < t.fireAt) = true :=
            List.any_eq_true.2 ⟨u, hu, decide_eq_true ⟨hju, hlt⟩⟩
          rw [hb] at hany
          exact Bool.false_ne_true hany
        have hnotcan : job.status ≠ .canceled :=
          fun hcan => hJob.canceledNoPending hcan t htmem rfl
        have hnotsucc : job.status ≠ .succeeded :=
          fun hs => hJob.succeededNoPending hs t htmem rfl
        have htsh := hsh t htmem rfl
        constructor
        · intro id j2 hget
          by_cases hid : id = t.jobId
          · subst hid
            rw [mapGet_mapSet_self] at hget
            injection hget with hj2
            subst hj2
            rcases htsh with ⟨hqt, hkind, hfa⟩ | ⟨hct, hkind, hfa⟩
            · -- the queue timer fires: the job becomes processing
              rw [hkind]
              refine ⟨hJob.idFresh,
                ⟨q, c, cr, hts, hqc, fun u huf hju => hsh u (List.mem_filter.1 huf).1 hju⟩,
                fun hcan => JobStatus.noConfusion hcan,
                fun hsucc => JobStatus.noConfusion hsucc,
                fun hfail => JobStatus.noConfusion hfail, ?_, ?_⟩
              · constructor
                · intro hr
                  exact absurd (hJob.resultIff.1 hr) hnotsucc
                · intro hc2
                  exact absurd hc2 (fun hh => JobStatus.noConfusion hh)
              · constructor
                · intro hr
                  exact absurd (hJob.errorIff.1 hr) hJob.notFailed
                · intro hc2
                  exact absurd hc2 (fun hh => JobStatus.noConfusion hh)
            · -- the completion timer fires: the job becomes succeeded with a result
              rw [hkind]
              refine ⟨hJob.idFresh,
                ⟨q, c, cr, hts, hqc, fun u huf hju => hsh u (List.mem_filter.1 huf).1 hju⟩,
                fun hcan => JobStatus.noConfusion hcan, ?_,
                fun hfail => JobStatus.noConfusion hfail, by simp [runCallback, completionCallback], ?_⟩
              · intro _ u huf hju
                obtain ⟨humem, hupass⟩ := List.mem_filter.1 huf
                rcases hsh u humem hju with ⟨hu1, _, hufa⟩ | ⟨hu1, _, hufa⟩
                · exact hnb u humem hju (by rw [hufa, hfa]; omega)
                · have hutid : u.tid = tid := by
                    rw [hu1, ← hct]
                    exact htid
                  simp [hutid] at hupass
              · constructor
                · intro hr
                  exact absurd (hJob.errorIff.1 hr) hJob.notFailed
                · intro hc2
                  exact absurd hc2 (fun hh => JobStatus.noConfusion hh)
          · rw [mapGet_mapSet_ne _ _ _ _ hid] at hget
            have hJ := h.jobInv id j2 hget
            obtain ⟨q2, c2, cr2, hts2, hqc2, hsh2⟩ := hJ.timersShape
            exact ⟨hJ.idFresh,
              ⟨q2, c2, cr2, hts2, hqc2, fun u huf hju => hsh2 u (List.mem_filter.1 huf).1 hju⟩,
              fun hcan u huf => hJ.canceledNoPending hcan u (List.mem_filter.1 huf).1,
              fun hsucc u huf => hJ.succeededNoPending hsucc u (List.mem_filter.1 huf).1,
              hJ.notFailed, hJ.resultIff, hJ.errorIff⟩
        · intro u huf
          exact h.pendBound u (List.mem_filter.1 huf).1

theorem inv_step (s : SimState) (e : Event) (h : Inv s) : Inv (step s e) := by
  have h2 : Inv { s with clock := s.clock + 1 } := h
  cases e with
  | create o => exact inv_create _ o h2
  | fire tid => exact inv_fire _ tid h2
  | cancel id => exact inv_cancel _ id h2

theorem inv_run (s : SimState) (es : List Event) (h : Inv s) : Inv (run s es) := by
  induction es generalizing s with
  | nil => exact h
  | cons e es ih => exact ih _ (inv_step s e h)

/-! ### Persistence of the canceled state -/

theorem canceled_persists_create (s : SimState) (o : JobOptions) (id : String) (j : MockJob)
    (hInv : Inv s) (h : mapGet s.jobs id = some j) :
    mapGet (createMockJob s o).2.jobs id = some j := by
  have hJ := hInv.jobInv id j h
  obtain ⟨k, hk, hkeq⟩ := hJ.idFresh
  have hne : id ≠ randomUUID s.nextId := by
    rw [hkeq]
    intro hh
    have := randomUUID_injective hh
    omega
  show mapGet (mapSet s.jobs (randomUUID s.nextId) (newMockJob s o)) id = some j
  rw [mapGet_mapSet_ne _ _ _ _ hne]
  exact h

theorem canceled_persists_fire (s : SimState) (tid : Nat) (id : String) (j : MockJob)
    (hInv : Inv s) (h : mapGet s.jobs id = some j) (hc : j.status = .canceled) :
    mapGet (fireTimer s tid).jobs id = some j := by
  cases hf : s.pending.find? (fun t => t.tid = tid) with
  | none =>
    rw [fireTimer_not_pending s tid hf]
    exact h
  | some t =>
    cases hb : s.pending.any (fun u => u.jobId = t.jobId ∧ u.fireAt < t.fireAt) with
    | true =>
      rw [fireTimer_blocked s tid t hf hb]
      exact h
    | false =>
      have htmem : t ∈ s.pending := List.mem_of_find?_eq_some hf
      have hne : t.jobId ≠ id := (hInv.jobInv id j h).canceledNoPending hc t htmem
      cases hj : mapGet s.jobs t.jobId with
      | none =>
        rw [fireTimer_no_job s tid t hf hb hj]
        exact h
      | some job =>
        rw [fireTimer_fires s tid t job hf hb hj]
        show mapGet (mapSet s.jobs t.jobId (runCallback t.kind s.clock job)) id = some j
        rw [mapGet_mapSet_ne _ _ _ _ (Ne.symm hne)]
        exact h

theorem canceled_persists_cancel (s : SimState) (cid : String) (id : String) (j : MockJob)
    (h : mapGet s.jobs id = some j) (hc : j.status = .canceled) :
    mapGet (cancelMockJob s cid).2.jobs id = some j := by
  cases hm : mapGet s.jobs cid with
  | none =>
    rw [cancelMockJob_not_found s cid hm]
    exact h
  | some j3 =>
    by_cases ht : Terminal j3.status
    · rw [cancelMockJob_terminal s cid j3 hm ht]
      exact h
    · by_cases hid : id = cid
      · subst hid
        rw [h] at hm
        injection hm with hm2
        subst hm2
        exact absurd (Or.inr (Or.inr hc)) ht
      · rw [cancelMockJob_active s cid j3 hm ht]
        show mapGet (mapSet s.jobs cid
          { j3 with status := JobStatus.canceled, updated_at := s.clock }) id = some j
        rw [mapGet_mapSet_ne _ _ _ _ hid]
        exact h

theorem canceled_persists_step (s : SimState) (e : Event) (id : String) (j : MockJob)
    (hInv : Inv s) (h : mapGet s.jobs id = some j) (hc : j.status = .canceled) :
    mapGet (step s e).jobs id = some j := by
  have hInv2 : Inv { s with clock := s.clock + 1 } := hInv
  have h2 : mapGet ({ s with clock := s.clock + 1 } : SimState).jobs id = some j := h
  cases e with
  | create o => exact canceled_persists_create _ o id j hInv2 h2
  | fire tid => exact canceled_persists_fire _ tid id j hInv2 h2 hc
  | cancel cid => exact canceled_persists_cancel _ cid id j h2 hc

theorem canceled_persists_run (s : SimState) (es : List Event) (id : String) (j : MockJob)
    (hInv : Inv s) (h : mapGet s.jobs id = some j) (hc : j.status = .canceled) :
    mapGet (run s es).jobs id = some j := by
  induction es generalizing s with
  | nil => exact h
  | cons e es ih =>
    exact ih (step s e) (inv_step s e hInv) (canceled_persists_step s e id j hInv h hc)

/-! ### Claim theorems: temporal properties of the simulator -/

/-- C1.  Cancelling a registered job that is still `queued` or `processing`
leaves the job stored as `canceled` with no pending timer registration
aimed at it, and along every further execution the job is never observed
`processing` or `succeeded`. -/
theorem cancel_prevents_scheduled_transitions
    (evs1 evs2 : List Event) (id : String) (j : MockJob)
    (h : mapGet (run initState evs1).jobs id = some j)
    (hq : j.status = JobStatus.queued ∨ j.status = JobStatus.processing) :
    (∀ j2, mapGet (step (run initState evs1) (Event.cancel id)).jobs id = some j2 →
       j2.status = JobStatus.canceled) ∧
    (∀ t ∈ (step (run initState evs1) (Event.cancel id)).pending, t.jobId ≠ id) ∧
    (∀ j2, mapGet (run (step (run initState evs1) (Event.cancel id)) evs2).jobs id = some j2 →
       j2.status ≠ JobStatus.processing ∧ j2.status ≠ JobStatus.succeeded) := by
  have hInv1 : Inv (run initState evs1) := inv_run _ _ inv_init
  have hnt : ¬ Terminal j.status := by
    intro hT
    rcases hq with hq | hq <;> rw [hq] at hT <;>
      rcases hT with h1 | h1 | h1 <;> exact JobStatus.noConfusion h1
  have h2 : mapGet ({ run initState evs1 with
      clock := (run initState evs1).clock + 1 } : SimState).jobs id = some j := h
  have hgetc : mapGet (step (run initState evs1) (Event.cancel id)).jobs id =
      some { j with status := JobStatus.canceled,
                    updated_at := (run initState evs1).clock + 1 } := by
    show mapGet (cancelMockJob { run initState evs1 with
      clock := (run initState evs1).clock + 1 } id).2.jobs id = _
    rw [cancelMockJob_active _ id j h2 hnt]
    show mapGet (mapSet _ id _) id = _
    rw [mapGet_mapSet_self]
  have hJ := hInv1.jobInv id j h
  obtain ⟨q, c, cr, hts, hqc, hsh⟩ := hJ.timersShape
  refine ⟨?_, ?_, ?_⟩
  · intro j2 hget2
    rw [hgetc] at hget2
    injection hget2 with hj2
    subst hj2
    rfl
  · show ∀ t ∈ (cancelMockJob { run initState evs1 with
      clock := (run initState evs1).clock + 1 } id).2.pending, t.jobId ≠ id
    rw [cancelMockJob_active _ id j h2 hnt]
    intro t htf hjid
    obtain ⟨hmem, hpass⟩ := List.mem_filter.1 htf
    have hin : t.tid ∈ j.timers := by
      rcases hsh t hmem hjid with ⟨h1, _, _⟩ | ⟨h1, _, _⟩ <;> rw [h1, hts] <;> simp
    simp [hin] at hpass
  · intro j2 hget2
    have hInv2 : Inv (step (run initState evs1) (Event.cancel id)) :=
      inv_step _ _ hInv1
    have hrun := canceled_persists_run (step (run initState evs1) (Event.cancel id)) evs2 id
      { j with status := JobStatus.canceled, updated_at := (run initState evs1).clock + 1 }
      hInv2 hgetc rfl
    rw [hrun] at hget2
    injection hget2 with hj2
    subst hj2
    exact ⟨fun hh => JobStatus.noConfusion hh, fun hh => JobStatus.noConfusion hh⟩

/-- Witness for C1: create one job, cancel it at once, then let both of its
original timers come due. -/
theorem cancel_prevents_scheduled_transitions_witness :
    mapGet (run initState [Event.create demoOptions]).jobs demoId = some demoStoredJob ∧
    (demoStoredJob.status = JobStatus.queued ∨ demoStoredJob.status = JobStatus.processing) ∧
    ((∀ j2, mapGet (step (run initState [Event.create demoOptions])
        (Event.cancel demoId)).jobs demoId = some j2 → j2.status = JobStatus.canceled) ∧
     (∀ t ∈ (step (run initState [Event.create demoOptions]) (Event.cancel demoId)).pending,
        t.jobId ≠ demoId) ∧
     (∀ j2, mapGet (run (step (run initState [Event.create demoOptions])
          (Event.cancel demoId)) [Event.fire 0, Event.fire 1]).jobs demoId = some j2 →
        j2.status ≠ JobStatus.processing ∧ j2.status ≠ JobStatus.succeeded)) :=
  ⟨by decide, Or.inl rfl,
    cancel_prevents_scheduled_transitions [Event.create demoOptions] [Event.fire 0, Event.fire 1]
      demoId demoStoredJob (by decide) (Or.inl rfl)⟩

/-- C9.  At every reachable state of the simulator, a registered job holds
a `result` exactly when its status is `succeeded` and an `error` exactly
when its status is `failed`. -/
theorem result_error_iff_status (evs : List Event) (id : String) (j : MockJob)
    (h : mapGet (run initState evs).jobs id = some j) :
    (j.result.isSome ↔ j.status = JobStatus.succeeded) ∧
    (j.error.isSome ↔ j.status = JobStatus.failed) := by
  have hInv := inv_run initState evs inv_init
  have hJ := hInv.jobInv id j h
  exact ⟨hJ.resultIff, hJ.errorIff⟩

/-- Witness for C9 on the state reached by one create event. -/
theorem result_error_iff_status_witness :
    mapGet (run initState [Event.create demoOptions]).jobs demoId = some demoStoredJob ∧
    ((demoStoredJob.result.isSome ↔ demoStoredJob.status = JobStatus.succeeded) ∧
     (demoStoredJob.error.isSome ↔ demoStoredJob.status = JobStatus.failed)) :=
  ⟨by decide,
    result_error_iff_status [Event.create demoOptions] demoId demoStoredJob (by decide)⟩

/-- C2.  Evaluation at the failing input: cancelling the demo job a second
time (it is already in the terminal state `canceled`) produces a response
body that is the stored `MockJob` itself, whose `timers` field still holds
the two scheduling handles — not the public projection. -/
theorem cancel_of_terminal_job_returns_timers_field :
    (deleteJobRoute cfgMock noFetch sAfterCancel demoId).body =
      RespBody.mockJobJson demoCanceledJob ∧ demoCanceledJob.timers = [0, 1] :=
  ⟨by decide, rfl⟩

end Sora2
